import Mathlib

/-!
Shallow embedding of the conversation-session engine of `src/app.py`
(a voice-driven interview-rehearsal assistant).

Modelling choices:
* A chat message (`{"role": ..., "content": ...}`) is a `Turn`.
* Python strings are Lean `String`s (both are sequences of Unicode code
  points; `len`/slicing correspond to `String.length`/`String.take`,
  `.strip()` to the computable `String.strip` defined below).
* Session state (`st.session_state`) is the explicit record `AppState`.
* External effects are inputs: the transcription call is an
  `Except String String` (error message or transcript), the generation
  stream is a list of provider fragments (`Chunk`), PDF parsing is a list
  of per-page extraction results (`PageExtract`).
* The recording-stop handler (src/app.py lines 252-278) becomes the step
  function `run_round`, returning the new state together with the error
  banner written through `answer_box.error`, if any.  All functions are
  pure and total, so "does not mutate History" and "never throws" are
  facts about the translation; the theorems below make the corresponding
  state-preservation statements explicit.
-/

/-- One chat message as built by `src/app.py`: a dict with `role` and
`content` string fields. -/
structure Turn where
  role : String
  content : String
deriving DecidableEq, Repr

/-- Python's `str.strip()`: drop leading and trailing whitespace.  Core's
`String.trim` has the same meaning but is defined by well-founded
recursion over byte positions and so does not reduce by computation;
this structural version over the character list does, keeping every
definition below evaluable on concrete inputs. -/
def String.strip (s : String) : String :=
  ⟨((((s.data.dropWhile Char.isWhitespace).reverse).dropWhile Char.isWhitespace).reverse)⟩

/-- The fixed persona prompt `SYSTEM_PROMPT` (src/app.py lines 20-38).
The triple-quoted Python literal begins and ends with a newline; the
mojibake bytes on the second line are reproduced as the code points
U+201A U+00C4 U+00EE. -/
def SYSTEM_PROMPT : String := "\nYou are role-playing as a human job candidate in a live interview.\nSpeak naturally and conversationally‚Äînever mention you are an AI or that you lack opinions.\nAim for the tone and knowledge of an M.Tech (Electronics) graduate: practical, down-to-earth, and clear.\nWhen relevant, use the STAR method (Situation, Task, Action, Result) to explain projects/experiences.\nRemember to always answer in very normal indian english, no need for hifi english words.\nSometimes the user may ask ambiguos questions, you need to make some assumptionsabout it, for example, user may ask which microcontroller was used in a project, so you need to take proper context from the resume, and answer it accordingly.\nSometimes, the user may ask questions such that it may feel like fill in the blanks, for eg, user may ask\x2D\x2D so the gassheild project is.., then you will have to complete the answer further. \nKeep answers focused, modest in length, and avoid over-technical jargon unless asked. Every question will be related to VLSI, Testing, COA, Digital, Embedded, etc, VLSI design. So if something is not clear or you have been asked an ambiguos question, assume in terms of these fields mentioned before. \nAlways answer to the point, no need to answer extra than what is asked, keep it simple and to the point. \n\nTry to answer somewhat in depth, understand what the user is trying to ask, take proper context and answer. \n\nGround your answers in the candidate\x27s resume context provided to you.\n\nOne more thing to remember-\nYou are also provided a document along with resume which has many important points to remember while answering question, imformation like which chip, fpga, or microcontroller is used in which project is mentioned there. Please refer to that along with the resume to answer your questions.\nImportant Point : if you are writing code in response, write comments in the code that clearly explain what that line of code does, please remember this, this is a very important point. \n"

/-- The visible truncation marker appended by `clamp_text`
(src/app.py line 118): a newline followed by the mojibake code points
U+201A U+00C4 U+00B6 and the text `[truncated]`. -/
def TRUNCATION_MARKER : String := "\n‚Ä¶[truncated]"

/-- The function `clamp_text` (src/app.py lines 117-118):
`txt if len(txt) <= max_chars else txt[:max_chars] + marker`.
In the source `max_chars` defaults to 16000; here it is passed
explicitly at every call site. -/
def clamp_text (txt : String) (max_chars : Nat) : String :=
  if txt.length ≤ max_chars then txt else txt.take max_chars ++ TRUNCATION_MARKER

/-- The fixed preamble of the second system message (src/app.py line 126). -/
def resumeContextPreamble : String := "Resume context (verbatim; use as factual background):\n"

/-- The function `build_messages` (src/app.py lines 120-129), with the
session fields it reads (`resume_text`, `history`) passed explicitly. -/
def build_messages (resume_text : String) (history : List Turn) : List Turn :=
  let msgs : List Turn := [{ role := "system", content := SYSTEM_PROMPT.strip }]
  let resume := resume_text.strip
  let msgs := if resume ≠ "" then
      msgs ++ [{ role := "system", content := resumeContextPreamble ++ clamp_text resume 16000 }]
    else
      msgs
  msgs ++ history

/-- A streamed delta object: its `content` attribute may be `None`
(modelled as `none`). -/
structure Delta where
  content : Option String
deriving DecidableEq, Repr

/-- One streamed provider fragment.  `choices` missing, `None`, or empty
all take the same `continue` branch in the code and are modelled as `[]`;
an element of `choices` carries a `delta` that may itself be `None`. -/
structure Chunk where
  choices : List (Option Delta)
deriving DecidableEq, Repr

/-- The generator `groq_chat_stream` (src/app.py lines 131-144), as the
list of pieces it yields over a finished iteration of `stream`: fragments
with no choices are skipped, as are fragments whose first delta is `None`
or whose `content` is `None` or empty (falsy). -/
def groq_chat_stream : List Chunk → List String
  | [] => []
  | chunk :: rest =>
    match chunk.choices with
    | [] => groq_chat_stream rest
    | delta :: _ =>
      match delta with
      | none => groq_chat_stream rest
      | some d =>
        match d.content with
        | none => groq_chat_stream rest
        | some s => if s = "" then groq_chat_stream rest else s :: groq_chat_stream rest

/-- The non-empty content field of a fragment, if it has one.  Written
from the words of the spec ("yields exactly the non-empty content fields
in stream order, silently skipping fragments with no choices or no
content") to compare against `groq_chat_stream`. -/
def chunkContent (c : Chunk) : Option String :=
  match c.choices with
  | (some d) :: _ =>
    match d.content with
    | some s => if s = "" then none else some s
    | _ => none
  | _ => none

/-- Result the code observes for one PDF page: `page.extract_text()` may
raise (`pageError`, the page is skipped), return `None` (`pageNone`,
turned into `""` by `or ""`), or return a string. -/
inductive PageExtract
  | pageError
  | pageNone
  | pageText (s : String)
deriving DecidableEq, Repr

/-- The page loop and join of `extract_pdf_text`
(src/app.py lines 82-88), run after a successful parse: a page whose
`extract_text()` raises is skipped by the per-page try/except, a `None`
or string result contributes via `or ""`, and the parts are joined with
newlines and stripped. -/
def extract_pdf_pages_text (pages : List PageExtract) : String :=
  (String.intercalate "\n" (pages.filterMap fun p =>
    match p with
    | .pageError => none
    | .pageNone => some ""
    | .pageText s => some s)).strip

/-- The function `extract_pdf_text` (src/app.py lines 77-88).  The global
`_PDF_OK` flag (whether the pypdf import succeeded) is the `pdfOk`
argument.  The input byte string is abstracted to the outcome of
`PdfReader(io.BytesIO(pdf_bytes))` (line 81): either the parse raises —
that call sits outside any try/except, so the exception propagates out
of the function — or it yields the per-page extraction results. -/
def extract_pdf_text (pdfOk : Bool) (pdf : Except String (List PageExtract)) :
    Except String String :=
  if !pdfOk then Except.ok ""
  else
    match pdf with
    | Except.error e => Except.error e
    | Except.ok pages => Except.ok (extract_pdf_pages_text pages)

/-- The whole session state created by `init_state`
(src/app.py lines 90-103). -/
structure AppState where
  history : List Turn
  resume_text : String
  last_transcript : Option String
  last_response : Option String
  cleared_for_this_round : Bool
  qa_pairs : Nat
deriving DecidableEq, Repr

/-- The initial session state installed by `init_state`
(src/app.py lines 90-104). -/
def init_state : AppState :=
  { history := []
    resume_text := ""
    last_transcript := none
    last_response := none
    cleared_for_this_round := false
    qa_pairs := 0 }

/-- The slot label prepended to the first upload (src/app.py line 156). -/
def slot1Label : String := "=== Resume 1 ===\n"

/-- The slot label prepended to the second upload (src/app.py line 160). -/
def slot2Label : String := "=== Important Points to Remember ===\n"

/-- The `combined_resume` list assembled by the sidebar upload handler
(src/app.py lines 152-160): for each present upload, its extracted text
is appended, prefixed with the slot label, when non-empty.  `none`
models an absent upload (`up is None`); a present upload is modelled by
its parsed pages — the handler is analysed over runs that complete, and
`if pdfOk then extract_pdf_pages_text p else ""` is exactly the value
`extract_pdf_text` returns for such an upload (`extract_pdf_text_ok`
below). -/
def combined_resume (pdfOk : Bool) (up1 up2 : Option (List PageExtract)) : List String :=
  (match up1 with
   | none => []
   | some p1 =>
     let txt1 := if pdfOk then extract_pdf_pages_text p1 else ""
     if txt1 ≠ "" then [slot1Label ++ txt1] else []) ++
  (match up2 with
   | none => []
   | some p2 =>
     let txt2 := if pdfOk then extract_pdf_pages_text p2 else ""
     if txt2 ≠ "" then [slot2Label ++ txt2] else [])

/-- The resume upload handler (src/app.py lines 152-162): when the
assembled `combined_resume` list is non-empty, the stored
`resume_text` is replaced by the blank-line join of that list, trimmed;
otherwise the state is untouched. -/
def upload_handler (s : AppState) (pdfOk : Bool) (up1 up2 : Option (List PageExtract)) : AppState :=
  let combined := combined_resume pdfOk up1 up2
  if combined ≠ [] then
    { s with resume_text := (String.intercalate "\n\n" combined).strip }
  else
    s

/-- Outcome of driving the generation stream to its end: either the
iteration finishes having produced these fragments, or the provider
raises mid-stream with this message (pieces already yielded only feed
the transient display, not the state). -/
inductive GenOutcome
  | ok (chunks : List Chunk)
  | err (msg : String)
deriving DecidableEq, Repr

/-- The recording-stop round handler (src/app.py lines 252-278).  Inputs:
the state, the outcome of `groq_stt_from_wav_bytes` and the outcome of
the generation stream.  Returns the new state and the error banner
written through `answer_box.error`, if any.  The messages sent to the
provider are `build_messages s.resume_text s.history` computed after the
user turn is appended; they do not feed back into the state, so they
appear only in the theorems, not here. -/
def run_round (s : AppState) (tr : Except String String) (gen : GenOutcome) :
    AppState × Option String :=
  let s := { s with last_transcript := none, last_response := none }
  match tr with
  | .error e =>
    ({ s with cleared_for_this_round := false }, some ("Transcription error: " ++ e))
  | .ok transcript =>
    let s := { s with last_transcript := some transcript.strip }
    let s := { s with history := s.history ++ [({ role := "user", content := transcript.strip } : Turn)] }
    match gen with
    | .err e =>
      ({ s with cleared_for_this_round := false }, some ("LLM error: " ++ e))
    | .ok chunks =>
      let full_text := String.join (groq_chat_stream chunks)
      let s := { s with last_response := some full_text.strip }
      let s := { s with history := s.history ++ [({ role := "assistant", content := full_text.strip } : Turn)] }
      let s := { s with qa_pairs := s.qa_pairs + 1 }
      let s := if s.qa_pairs ≥ 10 then { s with history := [], qa_pairs := 0 } else s
      ({ s with cleared_for_this_round := false }, none)

/-- A round in which both the transcription call and the generation
stream succeed. -/
def successful_round (s : AppState) (t : String) (chunks : List Chunk) : AppState :=
  (run_round s (.ok t) (.ok chunks)).1

/-- A sequence of successful rounds, oldest first. -/
def run_rounds (s : AppState) : List (String × List Chunk) → AppState
  | [] => s
  | (t, cs) :: rest => run_rounds (successful_round s t cs) rest

/-! Theorems. -/

/-- The length of `String.take` is bounded by the requested count. -/
lemma string_take_length_le (s : String) (n : Nat) : (s.take n).length ≤ n := by
  rw [String.take_eq]
  show (s.1.take n).length ≤ n
  simp [List.length_take]

/-- Claim C5: `clamp_text` returns `txt` unchanged when `len(txt) <= 16000`,
otherwise the first 16000 characters followed by the visible truncation
marker; hence the result length is at most `16000 + len(marker)`. -/
theorem clamp_text_spec (txt : String) :
    (txt.length ≤ 16000 → clamp_text txt 16000 = txt) ∧
    (16000 < txt.length → clamp_text txt 16000 = txt.take 16000 ++ TRUNCATION_MARKER) ∧
    (clamp_text txt 16000).length ≤ 16000 + TRUNCATION_MARKER.length := by
  refine ⟨fun h => by simp [clamp_text, h], fun h => by rw [clamp_text, if_neg (by omega)], ?_⟩
  by_cases h : txt.length ≤ 16000
  · simp only [clamp_text, if_pos h]
    omega
  · rw [clamp_text, if_neg h, String.length_append]
    have := string_take_length_le txt 16000
    omega

/-- Witness for `clamp_text_spec` at a concrete short input. -/
theorem clamp_text_spec_witness :
    ("abc".length ≤ 16000 → clamp_text "abc" 16000 = "abc") ∧
    (16000 < "abc".length → clamp_text "abc" 16000 = "abc".take 16000 ++ TRUNCATION_MARKER) ∧
    (clamp_text "abc" 16000).length ≤ 16000 + TRUNCATION_MARKER.length :=
  clamp_text_spec "abc"

/-- For an upload whose parse succeeds, `extract_pdf_text` returns
normally with exactly the text the upload-handler model uses. -/
lemma extract_pdf_text_ok (pdfOk : Bool) (pages : List PageExtract) :
    extract_pdf_text pdfOk (Except.ok pages) =
      Except.ok (if pdfOk then extract_pdf_pages_text pages else "") := by
  cases pdfOk <;> rfl

/-- Counterexample to claim C6 as stated: ingestion can fail as a whole.
With the extraction capability present, `PdfReader(io.BytesIO(pdf_bytes))`
(src/app.py line 81) sits outside the try/except, so a byte string the
reader cannot parse — e.g. bytes that are not a PDF, where pypdf raises
`PdfReadError: EOF marker not found` — propagates out of
`extract_pdf_text` uncaught. -/
theorem extract_pdf_text_parse_failure :
    extract_pdf_text true (Except.error "EOF marker not found") =
      Except.error "EOF marker not found" := rfl

/-- Claim C6 (amended): with the extractor capability absent, ingestion
returns empty text without throwing — for every input, even one whose
parse would fail, since the capability check precedes parsing; and for
every input byte string whose parse succeeds ingestion returns normally,
with a page whose extraction raises skipped while the remaining pages
still contribute. -/
theorem extract_pdf_text_recovery (pdf : Except String (List PageExtract))
    (pages pre post : List PageExtract) :
    extract_pdf_text false pdf = Except.ok "" ∧
    extract_pdf_text true (Except.ok pages) =
      Except.ok (extract_pdf_pages_text pages) ∧
    extract_pdf_text true (Except.ok (pre ++ PageExtract.pageError :: post)) =
      extract_pdf_text true (Except.ok (pre ++ post)) := by
  refine ⟨rfl, rfl, ?_⟩
  simp [extract_pdf_text, extract_pdf_pages_text, List.filterMap_append, List.filterMap_cons]

/-- Claim C3: a failed transcription call yields the banner
`Transcription error: ...` and a state identical to the starting one
except for the cleared transient display fields — in particular History
and the round counter are untouched and no user turn is appended. -/
theorem transcription_error_preserves_state (s : AppState) (e : String) (gen : GenOutcome) :
    run_round s (.error e) gen =
      ({ s with last_transcript := none, last_response := none, cleared_for_this_round := false },
        some ("Transcription error: " ++ e)) ∧
    (run_round s (.error e) gen).1.history = s.history ∧
    (run_round s (.error e) gen).1.qa_pairs = s.qa_pairs :=
  ⟨rfl, rfl, rfl⟩

/-- Claim C4: if transcription succeeds but the generation stream raises,
exactly the user turn (with the trimmed transcript) has been appended,
no assistant turn is added, the round counter is unchanged, and the
`LLM error: ...` banner is surfaced — History grows by exactly 1. -/
theorem generation_error_dangling_user_turn (s : AppState) (t e : String) :
    (run_round s (.ok t) (.err e)).1.history =
      s.history ++ [({ role := "user", content := t.strip } : Turn)] ∧
    (run_round s (.ok t) (.err e)).1.qa_pairs = s.qa_pairs ∧
    (run_round s (.ok t) (.err e)).1.history.length = s.history.length + 1 ∧
    (run_round s (.ok t) (.err e)).2 = some ("LLM error: " ++ e) := by
  refine ⟨rfl, rfl, ?_, rfl⟩
  simp [run_round]

/-- Claim C10: an upload event whose slots produce no non-empty extracted
text leaves the whole state — in particular a previously stored non-empty
Document Context — exactly as it was. -/
theorem empty_upload_preserves_resume (s : AppState) (pdfOk : Bool)
    (u1 u2 : Option (List PageExtract)) (h : combined_resume pdfOk u1 u2 = []) :
    upload_handler s pdfOk u1 u2 = s := by
  simp [upload_handler, h]

/-- Witness for `empty_upload_preserves_resume`: the extractor is absent,
so an uploaded file extracts to empty and an earlier Document Context
value `R` survives. -/
theorem empty_upload_preserves_resume_witness :
    combined_resume false (some [PageExtract.pageText "ignored"]) none = [] ∧
    upload_handler { init_state with resume_text := "R" } false
        (some [PageExtract.pageText "ignored"]) none =
      { init_state with resume_text := "R" } :=
  ⟨by decide, empty_upload_preserves_resume _ _ _ _ (by decide)⟩

/-- Claim C2: `build_messages` always starts with the single fixed system
persona message, adds the system context message exactly when the
Document Context is non-empty after stripping, and ends with History
verbatim and in order (the history argument reappears untouched as the
suffix; being a pure function, the assembler cannot mutate it). -/
theorem build_messages_spec (r : String) (h : List Turn) :
    build_messages r h =
      (({ role := "system", content := SYSTEM_PROMPT.strip } : Turn) ::
        (if r.strip = "" then []
         else [({ role := "system",
                  content := resumeContextPreamble ++ clamp_text r.strip 16000 } : Turn)])) ++ h ∧
    (build_messages r h).head? = some ({ role := "system", content := SYSTEM_PROMPT.strip } : Turn) ∧
    List.drop (if r.strip = "" then 1 else 2) (build_messages r h) = h := by
  by_cases hr : r.strip = "" <;> simp [build_messages, hr]

/-- Claim C7: re-running the upload handler with the same uploads is
idempotent, the stored Document Context is the blank-line join of the
labelled non-empty slot texts, trimmed, and (replacement, not
duplication) it does not depend on whatever Document Context the state
held before. -/
theorem upload_replaces_and_formats (s s2 : AppState) (pdfOk : Bool)
    (u1 u2 : Option (List PageExtract))
    (h : combined_resume pdfOk u1 u2 ≠ []) :
    upload_handler (upload_handler s pdfOk u1 u2) pdfOk u1 u2 = upload_handler s pdfOk u1 u2 ∧
    (upload_handler s pdfOk u1 u2).resume_text =
      (String.intercalate "\n\n" (combined_resume pdfOk u1 u2)).strip ∧
    (upload_handler s pdfOk u1 u2).resume_text = (upload_handler s2 pdfOk u1 u2).resume_text := by
  simp [upload_handler, h]

/-- Witness for `upload_replaces_and_formats`: one uploaded document that
extracts to `Skilled in VLSI`, against two different starting states. -/
theorem upload_replaces_and_formats_witness :
    combined_resume true (some [PageExtract.pageText "Skilled in VLSI"]) none ≠ [] ∧
    (upload_handler (upload_handler init_state true
          (some [PageExtract.pageText "Skilled in VLSI"]) none) true
        (some [PageExtract.pageText "Skilled in VLSI"]) none =
      upload_handler init_state true (some [PageExtract.pageText "Skilled in VLSI"]) none ∧
    (upload_handler init_state true
        (some [PageExtract.pageText "Skilled in VLSI"]) none).resume_text =
      (String.intercalate "\n\n"
        (combined_resume true (some [PageExtract.pageText "Skilled in VLSI"]) none)).strip ∧
    (upload_handler init_state true
        (some [PageExtract.pageText "Skilled in VLSI"]) none).resume_text =
      (upload_handler { init_state with resume_text := "Z" } true
        (some [PageExtract.pageText "Skilled in VLSI"]) none).resume_text) :=
  ⟨by decide,
   upload_replaces_and_formats init_state { init_state with resume_text := "Z" } true
     (some [PageExtract.pageText "Skilled in VLSI"]) none (by decide)⟩

/-- Claim C8: a successful round taken from a state whose counter is
about to reach the window size clears History and resets the counter,
while the Document Context string is exactly what it was before. -/
theorem window_reset_preserves_document_context (s : AppState) (t : String) (cs : List Chunk)
    (h : 9 ≤ s.qa_pairs) :
    (successful_round s t cs).history = [] ∧
    (successful_round s t cs).qa_pairs = 0 ∧
    (successful_round s t cs).resume_text = s.resume_text := by
  have h10 : 10 ≤ s.qa_pairs + 1 := by omega
  simp [successful_round, run_round, h10]

/-- Witness for `window_reset_preserves_document_context`: the tenth
successful round from a state with nine committed exchanges and Document
Context `R`. -/
theorem window_reset_preserves_document_context_witness :
    9 ≤ ({ init_state with qa_pairs := 9, resume_text := "R" } : AppState).qa_pairs ∧
    ((successful_round { init_state with qa_pairs := 9, resume_text := "R" } "q" []).history = [] ∧
    (successful_round { init_state with qa_pairs := 9, resume_text := "R" } "q" []).qa_pairs = 0 ∧
    (successful_round { init_state with qa_pairs := 9, resume_text := "R" } "q" []).resume_text =
      ({ init_state with qa_pairs := 9, resume_text := "R" } : AppState).resume_text) :=
  ⟨by decide,
   window_reset_preserves_document_context
     { init_state with qa_pairs := 9, resume_text := "R" } "q" [] (by decide)⟩

/-- The stream loop agrees with the spec-side per-fragment extraction:
it yields precisely the fragments' non-empty content fields, in order. -/
lemma groq_chat_stream_eq_filterMap (chunks : List Chunk) :
    groq_chat_stream chunks = chunks.filterMap chunkContent := by
  induction chunks with
  | nil => rfl
  | cons c rest ih =>
    rcases c with ⟨choices⟩
    rw [List.filterMap_cons]
    cases choices with
    | nil => simpa [groq_chat_stream, chunkContent] using ih
    | cons d ds =>
      cases d with
      | none => simpa [groq_chat_stream, chunkContent] using ih
      | some dd =>
        cases hcc : dd.content with
        | none => simpa [groq_chat_stream, chunkContent, hcc] using ih
        | some str =>
          by_cases hs : str = "" <;>
            simp [groq_chat_stream, chunkContent, hcc, hs, ih]

/-- Every piece the stream loop yields is a non-empty string. -/
lemma groq_chat_stream_ne_empty (chunks : List Chunk) (x : String)
    (hx : x ∈ groq_chat_stream chunks) : x ≠ "" := by
  induction chunks with
  | nil => simp [groq_chat_stream] at hx
  | cons c rest ih =>
    rcases c with ⟨choices⟩
    cases choices with
    | nil => exact ih (by simpa [groq_chat_stream] using hx)
    | cons d ds =>
      cases d with
      | none => exact ih (by simpa [groq_chat_stream] using hx)
      | some dd =>
        cases hcc : dd.content with
        | none => exact ih (by simpa [groq_chat_stream, hcc] using hx)
        | some str =>
          by_cases hs : str = ""
          · exact ih (by simpa [groq_chat_stream, hcc, hs] using hx)
          · have hx2 : x = str ∨ x ∈ groq_chat_stream rest := by
              simpa [groq_chat_stream, hcc, hs] using hx
            rcases hx2 with rfl | hmem
            · exact hs
            · exact ih hmem

/-- Claim C9: the streaming loop yields exactly the non-empty content
fields of the provider fragments, in stream order (fragments with no
choices or no content are skipped and never yielded); and when the
stream ends without error, the committed assistant turn is the
concatenation of all yielded pieces, stripped. -/
theorem stream_yields_and_commits (s : AppState) (t : String) (chunks : List Chunk)
    (h : s.qa_pairs + 1 < 10) :
    groq_chat_stream chunks = chunks.filterMap chunkContent ∧
    (∀ x ∈ groq_chat_stream chunks, x ≠ "") ∧
    (run_round s (.ok t) (.ok chunks)).1.last_response =
      some (String.join (groq_chat_stream chunks)).strip ∧
    (run_round s (.ok t) (.ok chunks)).1.history =
      s.history ++ [({ role := "user", content := t.strip } : Turn),
        ({ role := "assistant",
           content := (String.join (groq_chat_stream chunks)).strip } : Turn)] := by
  have h10 : ¬ (10 ≤ s.qa_pairs + 1) := by omega
  exact ⟨groq_chat_stream_eq_filterMap chunks,
    fun x hx => groq_chat_stream_ne_empty chunks x hx,
    by simp [run_round, h10],
    by simp [run_round, h10]⟩

/-- Witness for `stream_yields_and_commits`: a three-fragment stream in
which only the first fragment carries content. -/
theorem stream_yields_and_commits_witness :
    init_state.qa_pairs + 1 < 10 ∧
    (groq_chat_stream [⟨[some ⟨some "Hi"⟩]⟩, ⟨[]⟩, ⟨[some ⟨none⟩]⟩] =
      List.filterMap chunkContent [⟨[some ⟨some "Hi"⟩]⟩, ⟨[]⟩, ⟨[some ⟨none⟩]⟩] ∧
    (∀ x ∈ groq_chat_stream [⟨[some ⟨some "Hi"⟩]⟩, ⟨[]⟩, ⟨[some ⟨none⟩]⟩], x ≠ "") ∧
    (run_round init_state (.ok " q ")
        (.ok [⟨[some ⟨some "Hi"⟩]⟩, ⟨[]⟩, ⟨[some ⟨none⟩]⟩])).1.last_response =
      some (String.join
        (groq_chat_stream [⟨[some ⟨some "Hi"⟩]⟩, ⟨[]⟩, ⟨[some ⟨none⟩]⟩])).strip ∧
    (run_round init_state (.ok " q ")
        (.ok [⟨[some ⟨some "Hi"⟩]⟩, ⟨[]⟩, ⟨[some ⟨none⟩]⟩])).1.history =
      init_state.history ++ [({ role := "user", content := " q ".strip } : Turn),
        ({ role := "assistant",
           content := (String.join
             (groq_chat_stream [⟨[some ⟨some "Hi"⟩]⟩, ⟨[]⟩, ⟨[some ⟨none⟩]⟩])).strip } : Turn)]) :=
  ⟨by decide,
   stream_yields_and_commits init_state " q "
     [⟨[some ⟨some "Hi"⟩]⟩, ⟨[]⟩, ⟨[some ⟨none⟩]⟩] (by decide)⟩

/-- One successful round keeps the shape invariant of the bounded
window: History holds exactly two turns per counted exchange and the
counter stays below the window size. -/
lemma successful_round_inv (s : AppState) (t : String) (cs : List Chunk)
    (h1 : s.history.length = 2 * s.qa_pairs) (h2 : s.qa_pairs < 10) :
    (successful_round s t cs).history.length = 2 * (successful_round s t cs).qa_pairs ∧
    (successful_round s t cs).qa_pairs < 10 := by
  by_cases h : 10 ≤ s.qa_pairs + 1
  · simp [successful_round, run_round, h]
  · simp only [successful_round, run_round, h, if_false, ite_false, if_neg h]
    simp [List.length_append]
    omega

/-- The shape invariant is preserved across any sequence of successful
rounds. -/
lemma run_rounds_inv (rounds : List (String × List Chunk)) (s : AppState)
    (h1 : s.history.length = 2 * s.qa_pairs) (h2 : s.qa_pairs < 10) :
    (run_rounds s rounds).history.length = 2 * (run_rounds s rounds).qa_pairs ∧
    (run_rounds s rounds).qa_pairs < 10 := by
  induction rounds generalizing s with
  | nil => exact ⟨h1, h2⟩
  | cons rc rest ih =>
    obtain ⟨t, cs⟩ := rc
    have hstep := successful_round_inv s t cs h1 h2
    simpa [run_rounds] using ih (successful_round s t cs) hstep.1 hstep.2

/-- Claim C1: after any sequence of successful rounds from the initial
state, History holds exactly `2 * RoundCounter` turns, the counter has
already been reset whenever it reached the window size 10 (so it is
always `< 10`, and the 10th exchange never survives into a later
prompt), and hence `len(History) mod 20 = 2 * (RoundCounter mod 10)`. -/
theorem history_window_invariant (rounds : List (String × List Chunk)) :
    (run_rounds init_state rounds).history.length =
      2 * (run_rounds init_state rounds).qa_pairs ∧
    (run_rounds init_state rounds).qa_pairs < 10 ∧
    (run_rounds init_state rounds).history.length % 20 =
      2 * ((run_rounds init_state rounds).qa_pairs % 10) := by
  obtain ⟨ha, hb⟩ := run_rounds_inv rounds init_state rfl (by decide)
  exact ⟨ha, hb, by omega⟩
